import Mathlib

/-!
Shallow embedding of the MACI deployment orchestrator.

Source files embedded:
* `src/unnamed/part_000` — the contract deployment script (`deployMaci`,
  `deploySignupToken`, `deploySignupTokenGatekeeper`,
  `deployConstantInitialVoiceCreditProxy`, `main`).
* `src/cli/ts/commands/deployVkRegistry.ts` — `deployVkRegistryContract`.

The external contract-deployer capability (etherlime `deployer.deploy`) is
modelled as a function from the contract artifact being deployed to an
optional address: `some addr` when the deployment transaction confirms with
address `addr`, `none` when it fails (rejected / reverted / timed out).
Each run is modelled with an explicit trace of the deploy calls issued, in
order, so that ordering and "never attempted" properties are statable.
JavaScript big integers (`bigInt` from maci-crypto) are modelled as `Nat`
with `Nat.repr` standing for `.toString()`.
-/

namespace Maci

/-- The contract artifacts deployed by the script (the `require`d compiled
JSON artifacts actually used by `main` and `deployMaci`). -/
inductive Contract where
  | SignUpToken
  | ConstantInitialVoiceCreditProxy
  | SignUpTokenGatekeeper
  | MiMC
  | BatchUpdateStateTreeVerifier
  | QuadVoteTallyVerifier
  | MACI
deriving DecidableEq, Repr

/-- A coordinator public key: two field elements (`maci-domainobjs` `PubKey`),
modelled as two natural numbers. -/
structure PubKey where
  x : Nat
  y : Nat
deriving DecidableEq, Repr

/-- The configuration values read from `config.maci` by `deployMaci` and
`main` (tree depths, batch sizes, durations, coordinator private key,
initial voice credit balance). -/
structure MaciConfig where
  stateTreeDepth : Nat
  messageTreeDepth : Nat
  voteOptionTreeDepth : Nat
  quadVoteTallyBatchSize : Nat
  messageBatchSize : Nat
  voteOptionsMaxLeafIndex : Nat
  signUpDurationInSeconds : Nat
  votingDurationInSeconds : Nat
  initialVoiceCreditBalance : Nat
  coordinatorPrivKey : Nat
deriving Repr

/-- The constructor and library-link arguments passed to the MACI contract
deployment (`deployer.deploy(MACI, { MiMC: ... }, ...)`, source lines
138-161). String fields model the stringly-typed arguments of the source
(`maxUsers`, `maxMessages` and the coordinator key coordinates are passed
as decimal strings). -/
structure MaciDeployArgs where
  mimcLink : String
  stateTreeDepth : Nat
  messageTreeDepth : Nat
  voteOptionTreeDepth : Nat
  tallyBatchSize : Nat
  messageBatchSize : Nat
  maxUsers : String
  maxMessages : String
  maxVoteOptions : Nat
  signUpGatekeeperAddress : String
  batchUstVerifierAddress : String
  quadVoteTallyVerifierAddress : String
  signUpDurationInSeconds : Nat
  votingDurationInSeconds : Nat
  initialVoiceCreditProxy : String
  coordinatorPubKeyX : String
  coordinatorPubKeyY : String
deriving DecidableEq, Repr

/-- One invocation of `deployer.deploy`, with the artifact and the
dependency arguments threaded into it. -/
inductive DeployCall where
  | signUpToken
  | constantInitialVoiceCreditProxy (amount : Nat)
  | signUpTokenGatekeeper (signUpTokenAddress : String)
  | mimc
  | batchUpdateStateTreeVerifier
  | quadVoteTallyVerifier
  | maci (args : MaciDeployArgs)
deriving DecidableEq, Repr

/-- The artifact a deploy call deploys. -/
def DeployCall.contract : DeployCall → Contract
  | .signUpToken => .SignUpToken
  | .constantInitialVoiceCreditProxy _ => .ConstantInitialVoiceCreditProxy
  | .signUpTokenGatekeeper _ => .SignUpTokenGatekeeper
  | .mimc => .MiMC
  | .batchUpdateStateTreeVerifier => .BatchUpdateStateTreeVerifier
  | .quadVoteTallyVerifier => .QuadVoteTallyVerifier
  | .maci _ => .MACI

/-- Whether a deploy call deploys the signup token artifact. -/
def DeployCall.isSignUpToken : DeployCall → Bool
  | .signUpToken => true
  | _ => false

/-- Whether a deploy call deploys the MACI artifact. -/
def DeployCall.isMaci : DeployCall → Bool
  | .maci _ => true
  | _ => false

/-- The external deployer capability: for each artifact, either the address
the deployment transaction confirms with, or `none` when that deployment
fails. Each deploy call in the embeddings below first records the attempt
on the trace and then consults this capability. -/
abbrev Deployer : Type := Contract → Option String

/-- Embedding of source lines 120-123 of `deployMaci`: if no coordinator
public key was supplied, derive one from the configured private key with
`genPubKey` (an external pure function from `maci-crypto`, passed here as
the parameter `gen`); a supplied key is used as-is. -/
def resolveCoordinatorKey (gen : Nat → Nat × Nat) (privKey : Nat) :
    Option PubKey → PubKey
  | some pk => pk
  | none => PubKey.mk (gen privKey).1 (gen privKey).2

/-- Embedding of source lines 135-136: `(bigInt(2).pow(bigInt(depth)) -
bigInt(1)).toString()`, exact big-integer arithmetic followed by decimal
string encoding. -/
def capacityString (depth : Nat) : String :=
  Nat.repr (2 ^ depth - 1)

/-- The contracts returned by `deployMaci` (source lines 163-168), by
address. -/
structure DeployMaciResult where
  batchUstVerifierAddress : String
  quadVoteTallyVerifierAddress : String
  mimcAddress : String
  maciAddress : String
deriving DecidableEq, Repr

/-- Embedding of `deployMaci` (source lines 103-169): resolve the
coordinator key, deploy MiMC, the BatchUpdateStateTree verifier and the
QuadVoteTally verifier in that order, derive `maxUsers` and `maxMessages`,
then deploy MACI with the MiMC link, the depths and batch sizes, the
derived capacities, the gatekeeper, verifier and voice-credit-proxy
addresses, the duration windows and the coordinator public key. Returns
the extended trace, and `none` in place of a result as soon as one deploy
call fails (the thrown rejection aborts the rest). -/
def deployMaci (dep : Deployer) (gen : Nat → Nat × Nat) (cfg : MaciConfig)
    (signUpGatekeeperAddress : String) (initialVoiceCreditProxy : String)
    (coordinatorPubKey : Option PubKey) (tr : List DeployCall) :
    List DeployCall × Option DeployMaciResult :=
  let pk := resolveCoordinatorKey gen cfg.coordinatorPrivKey coordinatorPubKey
  let tr1 := tr ++ [DeployCall.mimc]
  match dep Contract.MiMC with
  | none => (tr1, none)
  | some mimcAddr =>
    let tr2 := tr1 ++ [DeployCall.batchUpdateStateTreeVerifier]
    match dep Contract.BatchUpdateStateTreeVerifier with
    | none => (tr2, none)
    | some batchUstAddr =>
      let tr3 := tr2 ++ [DeployCall.quadVoteTallyVerifier]
      match dep Contract.QuadVoteTallyVerifier with
      | none => (tr3, none)
      | some quadAddr =>
        let args : MaciDeployArgs :=
          { mimcLink := mimcAddr
            stateTreeDepth := cfg.stateTreeDepth
            messageTreeDepth := cfg.messageTreeDepth
            voteOptionTreeDepth := cfg.voteOptionTreeDepth
            tallyBatchSize := cfg.quadVoteTallyBatchSize
            messageBatchSize := cfg.messageBatchSize
            maxUsers := capacityString cfg.stateTreeDepth
            maxMessages := capacityString cfg.messageTreeDepth
            maxVoteOptions := cfg.voteOptionsMaxLeafIndex
            signUpGatekeeperAddress := signUpGatekeeperAddress
            batchUstVerifierAddress := batchUstAddr
            quadVoteTallyVerifierAddress := quadAddr
            signUpDurationInSeconds := cfg.signUpDurationInSeconds
            votingDurationInSeconds := cfg.votingDurationInSeconds
            initialVoiceCreditProxy := initialVoiceCreditProxy
            coordinatorPubKeyX := Nat.repr pk.x
            coordinatorPubKeyY := Nat.repr pk.y }
        let tr4 := tr3 ++ [DeployCall.maci args]
        match dep Contract.MACI with
        | none => (tr4, none)
        | some maciAddr =>
          (tr4, some
            { batchUstVerifierAddress := batchUstAddr
              quadVoteTallyVerifierAddress := quadAddr
              mimcAddress := mimcAddr
              maciAddress := maciAddr })

/-- The optional CLI overrides consumed by `main`: `--signUpToken` and
`--initialVoiceCreditProxy`. -/
structure MainArgs where
  signUpToken : Option String
  initialVoiceCreditProxy : Option String
deriving DecidableEq, Repr

/-- Embedding of source lines 217-224: the token slot. If `--signUpToken`
was supplied, its value becomes the token address and no deployment is
issued; otherwise `SignUpToken` is deployed fresh. Returns the deploy
calls issued by this step and the resolved address (`none` on failure). -/
def resolveTokenSlot (dep : Deployer) (args : MainArgs) :
    List DeployCall × Option String :=
  match args.signUpToken with
  | some a => ([], some a)
  | none => ([DeployCall.signUpToken], dep Contract.SignUpToken)

/-- Embedding of source lines 226-235: the voice-credit-proxy slot. If
`--initialVoiceCreditProxy` was supplied, its value becomes the proxy
address and no deployment is issued; otherwise
`ConstantInitialVoiceCreditProxy` is deployed fresh with the configured
initial balance. -/
def resolveProxySlot (dep : Deployer) (cfg : MaciConfig) (args : MainArgs) :
    List DeployCall × Option String :=
  match args.initialVoiceCreditProxy with
  | some a => ([], some a)
  | none =>
    ([DeployCall.constantInitialVoiceCreditProxy cfg.initialVoiceCreditBalance],
     dep Contract.ConstantInitialVoiceCreditProxy)

/-- Embedding of source lines 237-267, the tail of `main` once both
optional slots are resolved: deploy the gatekeeper with the resolved token
address, run `deployMaci` with the gatekeeper and proxy addresses, and
assemble the persisted address object `{ MiMC,
BatchUpdateStateTreeVerifier, QuadraticVoteTallyVerifier, MACI }` (source
lines 253-258) that is written to the output file. The second component is
`none` when any step failed: the exception propagates and nothing is
written. -/
def gatekeeperAndMaci (dep : Deployer) (gen : Nat → Nat × Nat)
    (cfg : MaciConfig) (signUpTokenAddress : String)
    (initialVoiceCreditBalanceAddress : String) (tr1 : List DeployCall) :
    List DeployCall × Option (List (String × String)) :=
  let tr2 := tr1 ++ [DeployCall.signUpTokenGatekeeper signUpTokenAddress]
  match dep Contract.SignUpTokenGatekeeper with
  | none => (tr2, none)
  | some gatekeeperAddress =>
    match deployMaci dep gen cfg gatekeeperAddress
        initialVoiceCreditBalanceAddress none tr2 with
    | (tr3, none) => (tr3, none)
    | (tr3, some res) =>
      (tr3, some
        [("MiMC", res.mimcAddress),
         ("BatchUpdateStateTreeVerifier", res.batchUstVerifierAddress),
         ("QuadraticVoteTallyVerifier", res.quadVoteTallyVerifierAddress),
         ("MACI", res.maciAddress)])

/-- Embedding of `main` (source lines 171-267): resolve the token slot
(reuse the supplied address or deploy `SignUpToken` fresh), resolve the
voice-credit-proxy slot the same way, then run the dependent tail
(`gatekeeperAndMaci`). -/
def mainRun (dep : Deployer) (gen : Nat → Nat × Nat) (cfg : MaciConfig)
    (args : MainArgs) : List DeployCall × Option (List (String × String)) :=
  match resolveTokenSlot dep args with
  | (tr0, none) => (tr0, none)
  | (tr0, some signUpTokenAddress) =>
    match resolveProxySlot dep cfg args with
    | (trP, none) => (tr0 ++ trP, none)
    | (trP, some initialVoiceCreditBalanceAddress) =>
      gatekeeperAndMaci dep gen cfg signUpTokenAddress
        initialVoiceCreditBalanceAddress (tr0 ++ trP)

/-- Whether a call is the gatekeeper deployment and, if so, whether its
token-address argument is the given address. -/
def DeployCall.gatekeeperArgIs (tokenAddr : String) : DeployCall → Bool
  | .signUpTokenGatekeeper t => t == tokenAddr
  | _ => true

/-- Whether a call is the MACI deployment and, if so, whether its `maxUsers`
argument is the given string. -/
def DeployCall.maciMaxUsersIs (s : String) : DeployCall → Bool
  | .maci a => a.maxUsers == s
  | _ => true

/-- A sample per-contract address assignment used for concrete runs. -/
def exAddr : Contract → String
  | .SignUpToken => "0x1"
  | .ConstantInitialVoiceCreditProxy => "0x2"
  | .SignUpTokenGatekeeper => "0x3"
  | .MiMC => "0x4"
  | .BatchUpdateStateTreeVerifier => "0x5"
  | .QuadVoteTallyVerifier => "0x6"
  | .MACI => "0x7"

/-- A deployer for which every deployment confirms. -/
def depAll : Deployer := fun c => some (exAddr c)

/-- A deployer for which the gatekeeper deployment fails and every other
deployment confirms. -/
def depNoGatekeeper : Deployer := fun c =>
  if c = Contract.SignUpTokenGatekeeper then none else some (exAddr c)

/-- A sample derivation function standing for `genPubKey`. -/
def genEx : Nat → Nat × Nat := fun k => (k + 1, k + 2)

/-- A sample configuration with small depths. -/
def cfgEx : MaciConfig :=
  { stateTreeDepth := 4
    messageTreeDepth := 2
    voteOptionTreeDepth := 2
    quadVoteTallyBatchSize := 4
    messageBatchSize := 25
    voteOptionsMaxLeafIndex := 3
    signUpDurationInSeconds := 3600
    votingDurationInSeconds := 3600
    initialVoiceCreditBalance := 100
    coordinatorPrivKey := 42 }

/-- `cfgEx` with a large state tree depth, for the precision check. -/
def cfg32 : MaciConfig :=
  { cfgEx with stateTreeDepth := 32 }

/-- `cfgEx` with a zero state tree depth. -/
def cfgZero : MaciConfig :=
  { cfgEx with stateTreeDepth := 0 }

/-- The MACI argument record produced by the all-confirming run on
`cfgEx` with no overrides. -/
def argsEx : MaciDeployArgs :=
  { mimcLink := "0x4"
    stateTreeDepth := 4
    messageTreeDepth := 2
    voteOptionTreeDepth := 2
    tallyBatchSize := 4
    messageBatchSize := 25
    maxUsers := "15"
    maxMessages := "3"
    maxVoteOptions := 3
    signUpGatekeeperAddress := "0x3"
    batchUstVerifierAddress := "0x5"
    quadVoteTallyVerifierAddress := "0x6"
    signUpDurationInSeconds := 3600
    votingDurationInSeconds := 3600
    initialVoiceCreditProxy := "0x2"
    coordinatorPubKeyX := "43"
    coordinatorPubKeyY := "44" }

/-- The MACI argument record produced by the all-confirming run on
`cfg32` with no overrides. -/
def args32 : MaciDeployArgs :=
  { argsEx with stateTreeDepth := 32, maxUsers := "4294967295" }


end Maci

namespace MaciCli

/-!
Embedding of `src/cli/ts/commands/deployVkRegistry.ts` and the address
store it drives. A manifest is an association list from logical contract
name to chain address; the filesystem is an association list from path to
manifest contents.
-/

/-- The persisted manifest contents: logical contract name paired with a
chain address. -/
abbrev Manifest : Type := List (String × String)

/-- A filesystem: the files that exist, as a path-to-manifest association
list. -/
abbrev FS : Type := List (String × Manifest)

/-- Look up a file by path; `none` when no file exists at that path. -/
def FS.lookupFile (fs : FS) (p : String) : Option Manifest :=
  match fs with
  | [] => none
  | (q, m) :: rest => if q = p then some m else FS.lookupFile rest p

/-- Remove the file at a path, if present. -/
def FS.removeFile (fs : FS) (p : String) : FS :=
  match fs with
  | [] => []
  | (q, m) :: rest =>
    if q = p then FS.removeFile rest p else (q, m) :: FS.removeFile rest p

/-- Create or overwrite the file at a path with the given contents. -/
def FS.writeFile (fs : FS) (p : String) (m : Manifest) : FS :=
  (p, m) :: FS.removeFile fs p

/-- The errors surfaced by a `deployVkRegistryContract` run: the filesystem
rename failing because the source file does not exist (Node ENOENT), or the
vkRegistry deployment transaction failing. -/
inductive RunError where
  | enoent
  | deployFailed
deriving DecidableEq, Repr

/-- Modelled from the spec and the documented semantics of Node's
`fs.renameSync` (the function itself is a platform builtin, not repository
code): renaming a non-existent source throws ENOENT; renaming onto an
existing destination replaces it silently (POSIX `rename`). -/
def renameSync (fs : FS) (src dst : String) : Except RunError FS :=
  match FS.lookupFile fs src with
  | none => Except.error RunError.enoent
  | some m => Except.ok (FS.writeFile (FS.removeFile fs src) dst m)

/-- Modelled from the spec: `contractAddressesStore` is defined in
`../utils/constants`, which is not under `src/`; the spec says the manifest
is "stored at a configured path". -/
def contractAddressesStore : String := "contractAddresses.json"

/-- Modelled from the spec: `oldContractAddressesStore` is defined in
`../utils/constants`, which is not under `src/`; the spec says a prior
manifest "is renamed to a backup path". -/
def oldContractAddressesStore : String := "contractAddresses.old.json"

/-- Modelled from the spec: `resetContractAddresses` lives in
`../utils/storage`, which is not under `src/`; per the spec's
`resetStore()`, after archiving it "begins a new empty manifest". -/
def resetContractAddresses (fs : FS) : FS :=
  FS.writeFile fs contractAddressesStore []

/-- Modelled from the spec: `storeContractAddress` lives in
`../utils/storage`, which is not under `src/`; per the spec it
"appends/updates one entry in the current manifest and flushes to durable
storage immediately", and "writing the same name twice overwrites the prior
address". -/
def storeContractAddress (fs : FS) (name addr : String) : FS :=
  let m := (FS.lookupFile fs contractAddressesStore).getD []
  let m2 :=
    if m.any (fun p => p.1 = name) then
      m.map (fun p => if p.1 = name then (name, addr) else p)
    else
      m ++ [(name, addr)]
  FS.writeFile fs contractAddressesStore m2

/-- Modelled from the spec: `loadManifest()` "reads the current persisted
state" of the manifest file. -/
def loadManifest (fs : FS) : Manifest :=
  (FS.lookupFile fs contractAddressesStore).getD []

/-- The spec's `resetStore()` operation, as the code realises it: the
archival rename at source line 17 of `deployVkRegistry.ts` followed by
`resetContractAddresses()` at line 18. -/
def resetStore (fs : FS) : Except RunError FS :=
  match renameSync fs contractAddressesStore oldContractAddressesStore with
  | Except.error e => Except.error e
  | Except.ok fs1 => Except.ok (resetContractAddresses fs1)

/-- Embedding of `deployVkRegistryContract` (source lines 12-25): rename
the store file to the backup path unconditionally, reset the store, deploy
the VkRegistry contract (the external `deployVkRegistry(true)` capability
is modelled by `deployResult`: the confirmed address, or `none` on
failure), and record its address. Returns the list of deployment attempts
made, the resulting filesystem, and the error, if any. -/
def deployVkRegistryContract (deployResult : Option String) (fs : FS) :
    List String × FS × Option RunError :=
  match renameSync fs contractAddressesStore oldContractAddressesStore with
  | Except.error e => ([], fs, some e)
  | Except.ok fs1 =>
    let fs2 := resetContractAddresses fs1
    match deployResult with
    | none => (["VkRegistry"], fs2, some RunError.deployFailed)
    | some addr =>
      (["VkRegistry"], storeContractAddress fs2 "VkRegistry" addr, none)

end MaciCli

namespace Maci

/-- Structural helper: if the MACI deployment was attempted during
`deployMaci`, every earlier dependency deployment succeeded, the arguments
record carries exactly the reported addresses and derived capacities, and
the trace is the four calls in order appended to the prior trace. -/
theorem deployMaci_maci_mem (dep : Deployer) (gen : Nat → Nat × Nat)
    (cfg : MaciConfig) (gk proxy : String) (pkOpt : Option PubKey)
    (tr : List DeployCall) (a : MaciDeployArgs)
    (h : DeployCall.maci a ∈ (deployMaci dep gen cfg gk proxy pkOpt tr).1)
    (h0 : DeployCall.maci a ∉ tr) :
    dep Contract.MiMC = some a.mimcLink ∧
    dep Contract.BatchUpdateStateTreeVerifier = some a.batchUstVerifierAddress ∧
    dep Contract.QuadVoteTallyVerifier = some a.quadVoteTallyVerifierAddress ∧
    a.signUpGatekeeperAddress = gk ∧
    a.maxUsers = capacityString cfg.stateTreeDepth ∧
    a.maxMessages = capacityString cfg.messageTreeDepth ∧
    (deployMaci dep gen cfg gk proxy pkOpt tr).1 =
      tr ++ [DeployCall.mimc, DeployCall.batchUpdateStateTreeVerifier,
             DeployCall.quadVoteTallyVerifier, DeployCall.maci a] := by
  unfold deployMaci at h ⊢
  rcases hm : dep Contract.MiMC with _ | mAddr <;> simp [hm] at h ⊢
  · exact absurd h h0
  rcases hb : dep Contract.BatchUpdateStateTreeVerifier with _ | bAddr <;>
    simp [hb] at h ⊢
  · exact absurd h h0
  rcases hq : dep Contract.QuadVoteTallyVerifier with _ | qAddr <;>
    simp [hq] at h ⊢
  · exact absurd h h0
  rcases hc : dep Contract.MACI with _ | cAddr <;> simp [hc] at h ⊢ <;>
  · rcases h with h | h
    · exact absurd h h0
    · subst h
      simp

/-- Structural helper: the same characterization lifted to the
`gatekeeperAndMaci` tail of `main`. -/
theorem gatekeeperAndMaci_maci_mem (dep : Deployer) (gen : Nat → Nat × Nat)
    (cfg : MaciConfig) (tokenAddr proxyAddr : String) (tr1 : List DeployCall)
    (a : MaciDeployArgs)
    (h : DeployCall.maci a ∈
      (gatekeeperAndMaci dep gen cfg tokenAddr proxyAddr tr1).1)
    (h0 : DeployCall.maci a ∉ tr1) :
    dep Contract.MiMC = some a.mimcLink ∧
    dep Contract.BatchUpdateStateTreeVerifier = some a.batchUstVerifierAddress ∧
    dep Contract.QuadVoteTallyVerifier = some a.quadVoteTallyVerifierAddress ∧
    dep Contract.SignUpTokenGatekeeper = some a.signUpGatekeeperAddress ∧
    a.maxUsers = capacityString cfg.stateTreeDepth ∧
    a.maxMessages = capacityString cfg.messageTreeDepth ∧
    (gatekeeperAndMaci dep gen cfg tokenAddr proxyAddr tr1).1 =
      tr1 ++ [DeployCall.signUpTokenGatekeeper tokenAddr, DeployCall.mimc,
              DeployCall.batchUpdateStateTreeVerifier,
              DeployCall.quadVoteTallyVerifier, DeployCall.maci a] := by
  unfold gatekeeperAndMaci at h ⊢
  rcases hg : dep Contract.SignUpTokenGatekeeper with _ | gkAddr <;>
    simp [hg] at h ⊢
  · exact absurd h h0
  · rcases hd : deployMaci dep gen cfg gkAddr proxyAddr none
        (tr1 ++ [DeployCall.signUpTokenGatekeeper tokenAddr]) with ⟨tr3, res⟩
    have hnot : DeployCall.maci a ∉
        tr1 ++ [DeployCall.signUpTokenGatekeeper tokenAddr] := by simp [h0]
    rcases res with _ | r <;> simp [hd] at h ⊢
    all_goals {
      obtain ⟨h1, h2, h3, h4, h5, h6, h7⟩ :=
        deployMaci_maci_mem dep gen cfg gkAddr proxyAddr none _ a
          (by rw [hd]; exact h) hnot
      rw [hd] at h7
      refine ⟨h1, h2, h3, ?_, h5, h6, ?_⟩
      · simp [h4, hg]
      · simp only [List.append_assoc, List.cons_append,
          List.nil_append] at h7 ⊢
        exact h7
    }


theorem mainRun_maci_mem (dep : Deployer) (gen : Nat → Nat × Nat)
    (cfg : MaciConfig) (args : MainArgs) (a : MaciDeployArgs)
    (h : DeployCall.maci a ∈ (mainRun dep gen cfg args).1) :
    dep Contract.MiMC = some a.mimcLink ∧
    dep Contract.BatchUpdateStateTreeVerifier = some a.batchUstVerifierAddress ∧
    dep Contract.QuadVoteTallyVerifier = some a.quadVoteTallyVerifierAddress ∧
    dep Contract.SignUpTokenGatekeeper = some a.signUpGatekeeperAddress ∧
    a.maxUsers = capacityString cfg.stateTreeDepth ∧
    a.maxMessages = capacityString cfg.messageTreeDepth ∧
    ∃ pre post,
      (mainRun dep gen cfg args).1 = pre ++ DeployCall.maci a :: post ∧
      DeployCall.mimc ∈ pre ∧
      DeployCall.batchUpdateStateTreeVerifier ∈ pre ∧
      DeployCall.quadVoteTallyVerifier ∈ pre ∧
      ∃ t, DeployCall.signUpTokenGatekeeper t ∈ pre := by
  have tail : ∀ (tA pA : String) (tr1 : List DeployCall),
      DeployCall.maci a ∉ tr1 →
      DeployCall.maci a ∈ (gatekeeperAndMaci dep gen cfg tA pA tr1).1 →
      dep Contract.MiMC = some a.mimcLink ∧
      dep Contract.BatchUpdateStateTreeVerifier =
        some a.batchUstVerifierAddress ∧
      dep Contract.QuadVoteTallyVerifier =
        some a.quadVoteTallyVerifierAddress ∧
      dep Contract.SignUpTokenGatekeeper = some a.signUpGatekeeperAddress ∧
      a.maxUsers = capacityString cfg.stateTreeDepth ∧
      a.maxMessages = capacityString cfg.messageTreeDepth ∧
      ∃ pre post,
        (gatekeeperAndMaci dep gen cfg tA pA tr1).1 =
          pre ++ DeployCall.maci a :: post ∧
        DeployCall.mimc ∈ pre ∧
        DeployCall.batchUpdateStateTreeVerifier ∈ pre ∧
        DeployCall.quadVoteTallyVerifier ∈ pre ∧
        ∃ t, DeployCall.signUpTokenGatekeeper t ∈ pre := by
    intro tA pA tr1 h0 hm
    obtain ⟨h1, h2, h3, h4, h5, h6, h7⟩ :=
      gatekeeperAndMaci_maci_mem dep gen cfg tA pA tr1 a hm h0
    refine ⟨h1, h2, h3, h4, h5, h6,
      tr1 ++ [DeployCall.signUpTokenGatekeeper tA, DeployCall.mimc,
        DeployCall.batchUpdateStateTreeVerifier,
        DeployCall.quadVoteTallyVerifier], [], ?_,
      by simp, by simp, by simp, ⟨tA, by simp⟩⟩
    simp [h7]
  rcases args with ⟨tok, proxy⟩
  rcases tok with _ | tokA <;> rcases proxy with _ | proxyA
  · rcases ht : dep Contract.SignUpToken with _ | tokF
    · simp [mainRun, resolveTokenSlot, resolveProxySlot, ht] at h
    · rcases hp : dep Contract.ConstantInitialVoiceCreditProxy with _ | pF
      · simp [mainRun, resolveTokenSlot, resolveProxySlot, ht, hp] at h
      · have hEq : mainRun dep gen cfg ⟨none, none⟩ =
            gatekeeperAndMaci dep gen cfg tokF pF
              [DeployCall.signUpToken,
               DeployCall.constantInitialVoiceCreditProxy
                 cfg.initialVoiceCreditBalance] := by
          simp [mainRun, resolveTokenSlot, resolveProxySlot, ht, hp]
        rw [hEq] at h ⊢
        exact tail tokF pF _ (by simp) h
  · rcases ht : dep Contract.SignUpToken with _ | tokF
    · simp [mainRun, resolveTokenSlot, resolveProxySlot, ht] at h
    · have hEq : mainRun dep gen cfg ⟨none, some proxyA⟩ =
          gatekeeperAndMaci dep gen cfg tokF proxyA
            [DeployCall.signUpToken] := by
        simp [mainRun, resolveTokenSlot, resolveProxySlot, ht]
      rw [hEq] at h ⊢
      exact tail tokF proxyA _ (by simp) h
  · rcases hp : dep Contract.ConstantInitialVoiceCreditProxy with _ | pF
    · simp [mainRun, resolveTokenSlot, resolveProxySlot, hp] at h
    · have hEq : mainRun dep gen cfg ⟨some tokA, none⟩ =
          gatekeeperAndMaci dep gen cfg tokA pF
            [DeployCall.constantInitialVoiceCreditProxy
              cfg.initialVoiceCreditBalance] := by
        simp [mainRun, resolveTokenSlot, resolveProxySlot, hp]
      rw [hEq] at h ⊢
      exact tail tokA pF _ (by simp) h
  · have hEq : mainRun dep gen cfg ⟨some tokA, some proxyA⟩ =
        gatekeeperAndMaci dep gen cfg tokA proxyA [] := by
      simp [mainRun, resolveTokenSlot, resolveProxySlot]
    rw [hEq] at h ⊢
    exact tail tokA proxyA _ (by simp) h



/-- Structural helper: `deployMaci` only appends MiMC, verifier and MACI
deploy calls to the trace it is given. -/
theorem deployMaci_trace_extends (dep : Deployer) (gen : Nat → Nat × Nat)
    (cfg : MaciConfig) (gk proxy : String) (pkOpt : Option PubKey)
    (tr : List DeployCall) :
    ∃ s, (deployMaci dep gen cfg gk proxy pkOpt tr).1 = tr ++ s ∧
      ∀ c ∈ s, c = DeployCall.mimc ∨
        c = DeployCall.batchUpdateStateTreeVerifier ∨
        c = DeployCall.quadVoteTallyVerifier ∨
        ∃ ar, c = DeployCall.maci ar := by
  unfold deployMaci
  rcases hm : dep Contract.MiMC with _ | mA <;> simp [hm]
  rcases hb : dep Contract.BatchUpdateStateTreeVerifier with _ | bA <;>
    simp [hb]
  rcases hq : dep Contract.QuadVoteTallyVerifier with _ | qA <;> simp [hq]
  rcases hc : dep Contract.MACI with _ | cA <;> simp [hc]


/-- Structural helper: the `gatekeeperAndMaci` tail first attempts the
gatekeeper deployment with the resolved token address, and afterwards only
appends MiMC, verifier and MACI deploy calls. -/
theorem gatekeeperAndMaci_trace_extends (dep : Deployer)
    (gen : Nat → Nat × Nat) (cfg : MaciConfig) (tA pA : String)
    (tr1 : List DeployCall) :
    ∃ s, (gatekeeperAndMaci dep gen cfg tA pA tr1).1 =
      tr1 ++ DeployCall.signUpTokenGatekeeper tA :: s ∧
      ∀ c ∈ s, c = DeployCall.mimc ∨
        c = DeployCall.batchUpdateStateTreeVerifier ∨
        c = DeployCall.quadVoteTallyVerifier ∨
        ∃ ar, c = DeployCall.maci ar := by
  unfold gatekeeperAndMaci
  rcases hg : dep Contract.SignUpTokenGatekeeper with _ | gkA <;> simp [hg]
  obtain ⟨s, hs, hmem⟩ := deployMaci_trace_extends dep gen cfg gkA pA none
    (tr1 ++ [DeployCall.signUpTokenGatekeeper tA])
  rcases hd : deployMaci dep gen cfg gkA pA none
      (tr1 ++ [DeployCall.signUpTokenGatekeeper tA]) with ⟨tr3, res⟩
  have hs2 : tr3 =
      (tr1 ++ [DeployCall.signUpTokenGatekeeper tA]) ++ s := by
    rw [hd] at hs; exact hs
  rcases res with _ | r <;> simp [hd] <;> exact ⟨s, by simp [hs2], hmem⟩

/-- Structural helper: a manifest produced by the `gatekeeperAndMaci` tail
is exactly the four-entry address object of source lines 253-258, with the
deployer-reported addresses. -/
theorem gatekeeperAndMaci_manifest (dep : Deployer) (gen : Nat → Nat × Nat)
    (cfg : MaciConfig) (tA pA : String) (tr1 : List DeployCall)
    (m : List (String × String))
    (h : (gatekeeperAndMaci dep gen cfg tA pA tr1).2 = some m) :
    ∃ mimcA batchA quadA maciA,
      dep Contract.MiMC = some mimcA ∧
      dep Contract.BatchUpdateStateTreeVerifier = some batchA ∧
      dep Contract.QuadVoteTallyVerifier = some quadA ∧
      dep Contract.MACI = some maciA ∧
      m = [("MiMC", mimcA), ("BatchUpdateStateTreeVerifier", batchA),
           ("QuadraticVoteTallyVerifier", quadA), ("MACI", maciA)] := by
  unfold gatekeeperAndMaci deployMaci at h
  rcases hg : dep Contract.SignUpTokenGatekeeper with _ | gkA <;>
    simp [hg] at h
  rcases hm : dep Contract.MiMC with _ | mA <;> simp [hm] at h
  rcases hb : dep Contract.BatchUpdateStateTreeVerifier with _ | bA <;>
    simp [hb] at h
  rcases hq : dep Contract.QuadVoteTallyVerifier with _ | qA <;>
    simp [hq] at h
  rcases hc : dep Contract.MACI with _ | cA <;> simp [hc] at h
  exact ⟨mA, bA, qA, cA, rfl, rfl, rfl, rfl, h.symm⟩

/-- Structural helper: any manifest surfaced by a completed `main` run is
exactly the four-entry address object of source lines 253-258. -/
theorem mainRun_manifest_mem (dep : Deployer) (gen : Nat → Nat × Nat)
    (cfg : MaciConfig) (args : MainArgs) (m : List (String × String))
    (h : (mainRun dep gen cfg args).2 = some m) :
    ∃ mimcA batchA quadA maciA,
      dep Contract.MiMC = some mimcA ∧
      dep Contract.BatchUpdateStateTreeVerifier = some batchA ∧
      dep Contract.QuadVoteTallyVerifier = some quadA ∧
      dep Contract.MACI = some maciA ∧
      m = [("MiMC", mimcA), ("BatchUpdateStateTreeVerifier", batchA),
           ("QuadraticVoteTallyVerifier", quadA), ("MACI", maciA)] := by
  rcases args with ⟨tok, proxy⟩
  rcases tok with _ | tokA <;> rcases proxy with _ | proxyA
  · rcases ht : dep Contract.SignUpToken with _ | tokF
    · simp [mainRun, resolveTokenSlot, resolveProxySlot, ht] at h
    · rcases hp : dep Contract.ConstantInitialVoiceCreditProxy with _ | pF
      · simp [mainRun, resolveTokenSlot, resolveProxySlot, ht, hp] at h
      · simp only [mainRun, resolveTokenSlot, resolveProxySlot, ht, hp] at h
        exact gatekeeperAndMaci_manifest dep gen cfg tokF pF _ m h
  · rcases ht : dep Contract.SignUpToken with _ | tokF
    · simp [mainRun, resolveTokenSlot, resolveProxySlot, ht] at h
    · simp only [mainRun, resolveTokenSlot, resolveProxySlot, ht] at h
      exact gatekeeperAndMaci_manifest dep gen cfg tokF proxyA _ m h
  · rcases hp : dep Contract.ConstantInitialVoiceCreditProxy with _ | pF
    · simp [mainRun, resolveTokenSlot, resolveProxySlot, hp] at h
    · simp only [mainRun, resolveTokenSlot, resolveProxySlot, hp] at h
      exact gatekeeperAndMaci_manifest dep gen cfg tokA pF _ m h
  · simp only [mainRun, resolveTokenSlot, resolveProxySlot] at h
    exact gatekeeperAndMaci_manifest dep gen cfg tokA proxyA _ m h


/-- C1: for every configuration, whenever the MACI deployment is invoked
by `deployMaci`, the `maxUsers` and `maxMessages` strings passed to it are
the exact decimal encodings of `2 ^ stateTreeDepth - 1` and
`2 ^ messageTreeDepth - 1`, computed with arbitrary-precision natural
arithmetic and encoded only at the end. -/
theorem deployMaci_capacity_exact (dep : Deployer) (gen : Nat → Nat × Nat)
    (cfg : MaciConfig) (gk proxy : String) (pkOpt : Option PubKey)
    (tr : List DeployCall) (a : MaciDeployArgs)
    (h : DeployCall.maci a ∈ (deployMaci dep gen cfg gk proxy pkOpt tr).1)
    (h0 : DeployCall.maci a ∉ tr) :
    a.maxUsers = Nat.repr (2 ^ cfg.stateTreeDepth - 1) ∧
    a.maxMessages = Nat.repr (2 ^ cfg.messageTreeDepth - 1) := by
  obtain ⟨-, -, -, -, h5, h6, -⟩ :=
    deployMaci_maci_mem dep gen cfg gk proxy pkOpt tr a h h0
  exact ⟨h5, h6⟩

/-- C1 witness: the run with state tree depth 32 passes the exact value
`2 ^ 32 - 1 = 4294967295` with no precision loss. -/
theorem deployMaci_capacity_exact_witness :
    args32.maxUsers = Nat.repr (2 ^ cfg32.stateTreeDepth - 1) ∧
    args32.maxMessages = Nat.repr (2 ^ cfg32.messageTreeDepth - 1) :=
  deployMaci_capacity_exact depAll genEx cfg32 "0x3" "0x2" none [] args32
    (by decide) (by decide)

/-- C2 counterexample: with a supplied token address, a completed run's
persisted manifest has no token entry at all, and no entry equal to the
supplied address, refuting the claim that the manifest's token entry
equals the supplied address. -/
theorem tokenOverride_manifest_counterexample :
    (mainRun depAll genEx cfgEx ⟨some "0xTOKEN", none⟩).2 =
      some [("MiMC", "0x4"), ("BatchUpdateStateTreeVerifier", "0x5"),
            ("QuadraticVoteTallyVerifier", "0x6"), ("MACI", "0x7")] ∧
    (((mainRun depAll genEx cfgEx ⟨some "0xTOKEN", none⟩).2.getD []).all
      fun p => !(p.1 == "SignUpToken") && !(p.2 == "0xTOKEN")) = true := by
  decide

/-- C2 (amended): when a token address is supplied, no fresh token
deployment is ever invoked, the gatekeeper receives exactly the supplied
address, and the persisted manifest contains no token entry. -/
theorem tokenOverride_no_fresh_token_deploy (dep : Deployer)
    (gen : Nat → Nat × Nat) (cfg : MaciConfig) (tokA : String)
    (proxyOpt : Option String) :
    ((mainRun dep gen cfg ⟨some tokA, proxyOpt⟩).1.all
      fun c => !c.isSignUpToken) = true ∧
    ((mainRun dep gen cfg ⟨some tokA, proxyOpt⟩).1.all
      (DeployCall.gatekeeperArgIs tokA)) = true ∧
    (((mainRun dep gen cfg ⟨some tokA, proxyOpt⟩).2.getD []).all
      fun p => !(p.1 == "SignUpToken")) = true := by
  have htr : ∀ c ∈ (mainRun dep gen cfg ⟨some tokA, proxyOpt⟩).1,
      c = DeployCall.constantInitialVoiceCreditProxy
            cfg.initialVoiceCreditBalance ∨
      c = DeployCall.signUpTokenGatekeeper tokA ∨
      c = DeployCall.mimc ∨
      c = DeployCall.batchUpdateStateTreeVerifier ∨
      c = DeployCall.quadVoteTallyVerifier ∨
      ∃ ar, c = DeployCall.maci ar := by
    intro c hc
    rcases proxyOpt with _ | pA
    · rcases hp : dep Contract.ConstantInitialVoiceCreditProxy with _ | pF
      · simp [mainRun, resolveTokenSlot, resolveProxySlot, hp] at hc
        simp [hc]
      · obtain ⟨s, hs, hmem⟩ := gatekeeperAndMaci_trace_extends dep gen cfg
          tokA pF [DeployCall.constantInitialVoiceCreditProxy
            cfg.initialVoiceCreditBalance]
        simp only [mainRun, resolveTokenSlot, resolveProxySlot, hp,
          List.nil_append, List.append_nil] at hc
        rw [hs] at hc
        simp at hc
        rcases hc with hc | hc | hc
        · simp [hc]
        · simp [hc]
        · rcases hmem c hc with h | h | h | h <;> simp [h]
    · obtain ⟨s, hs, hmem⟩ := gatekeeperAndMaci_trace_extends dep gen cfg
        tokA pA []
      simp only [mainRun, resolveTokenSlot, resolveProxySlot,
        List.nil_append, List.append_nil] at hc
      rw [hs] at hc
      simp at hc
      rcases hc with hc | hc
      · simp [hc]
      · rcases hmem c hc with h | h | h | h <;> simp [h]
  refine ⟨?_, ?_, ?_⟩
  · rw [List.all_eq_true]
    intro c hc
    rcases htr c hc with h | h | h | h | h | ⟨ar, h⟩ <;>
      simp [h, DeployCall.isSignUpToken]
  · rw [List.all_eq_true]
    intro c hc
    rcases htr c hc with h | h | h | h | h | ⟨ar, h⟩ <;>
      simp [h, DeployCall.gatekeeperArgIs]
  · rcases hm2 : (mainRun dep gen cfg ⟨some tokA, proxyOpt⟩).2 with _ | m
    · simp
    · obtain ⟨mimcA, batchA, quadA, maciA, -, -, -, -, hmEq⟩ :=
        mainRun_manifest_mem dep gen cfg ⟨some tokA, proxyOpt⟩ m hm2
      subst hmEq
      simp

/-- C3 counterexample: a completed run's persisted manifest carries no
entry for the token, the voice-credit proxy, or the gatekeeper, refuting
the claim that it contains one entry per required logical contract. -/
theorem manifest_missing_required_entries :
    (mainRun depAll genEx cfgEx ⟨none, none⟩).2.isSome = true ∧
    (((mainRun depAll genEx cfgEx ⟨none, none⟩).2.getD []).all fun p =>
      !(p.1 == "SignUpToken") && !(p.1 == "InitialVoiceCreditProxy") &&
      !(p.1 == "SignUpTokenGatekeeper")) = true := by decide

/-- C3 (amended): every manifest surfaced by a completed run contains
exactly one entry for each of MiMC, the BatchUpdateStateTree verifier, the
QuadVoteTally verifier and MACI, carrying the deployer-reported addresses;
the token, proxy and gatekeeper addresses are not persisted. -/
theorem mainRun_manifest_exact_entries (dep : Deployer)
    (gen : Nat → Nat × Nat) (cfg : MaciConfig) (args : MainArgs)
    (m : List (String × String))
    (h : (mainRun dep gen cfg args).2 = some m) :
    ∃ mimcA batchA quadA maciA,
      dep Contract.MiMC = some mimcA ∧
      dep Contract.BatchUpdateStateTreeVerifier = some batchA ∧
      dep Contract.QuadVoteTallyVerifier = some quadA ∧
      dep Contract.MACI = some maciA ∧
      m = [("MiMC", mimcA), ("BatchUpdateStateTreeVerifier", batchA),
           ("QuadraticVoteTallyVerifier", quadA), ("MACI", maciA)] :=
  mainRun_manifest_mem dep gen cfg args m h

/-- C3 witness: the all-confirming sample run. -/
theorem mainRun_manifest_exact_entries_witness :
    ∃ mimcA batchA quadA maciA,
      depAll Contract.MiMC = some mimcA ∧
      depAll Contract.BatchUpdateStateTreeVerifier = some batchA ∧
      depAll Contract.QuadVoteTallyVerifier = some quadA ∧
      depAll Contract.MACI = some maciA ∧
      [("MiMC", "0x4"), ("BatchUpdateStateTreeVerifier", "0x5"),
       ("QuadraticVoteTallyVerifier", "0x6"), ("MACI", "0x7")] =
        [("MiMC", mimcA), ("BatchUpdateStateTreeVerifier", batchA),
         ("QuadraticVoteTallyVerifier", quadA), ("MACI", maciA)] :=
  mainRun_manifest_exact_entries depAll genEx cfgEx ⟨none, none⟩
    [("MiMC", "0x4"), ("BatchUpdateStateTreeVerifier", "0x5"),
     ("QuadraticVoteTallyVerifier", "0x6"), ("MACI", "0x7")] (by decide)

/-- C4 counterexample: with a zero state tree depth the run does not fail:
deployments are attempted and the run completes with a manifest, refuting
the claim that an `InvalidParameter` error aborts the run before any
deployment is attempted. -/
theorem zeroDepth_run_proceeds :
    (mainRun depAll genEx cfgZero ⟨none, none⟩).2.isSome = true ∧
    (mainRun depAll genEx cfgZero ⟨none, none⟩).1 ≠ [] := by decide

/-- C4 (amended): no depth validation exists: with a zero state tree depth
the run still attempts deployments for every deployer outcome, and any
MACI deployment it issues carries `maxUsers = "0"` (that is,
`2 ^ 0 - 1`). -/
theorem mainRun_no_depth_validation (dep : Deployer)
    (gen : Nat → Nat × Nat) (cfg : MaciConfig) (args : MainArgs)
    (hz : cfg.stateTreeDepth = 0) :
    (mainRun dep gen cfg args).1 ≠ [] ∧
    ((mainRun dep gen cfg args).1.all
      (DeployCall.maciMaxUsersIs "0")) = true := by
  constructor
  · rcases args with ⟨tok, proxy⟩
    rcases tok with _ | tokA <;> rcases proxy with _ | proxyA
    · rcases ht : dep Contract.SignUpToken with _ | tokF
      · simp [mainRun, resolveTokenSlot, resolveProxySlot, ht]
      · rcases hp : dep Contract.ConstantInitialVoiceCreditProxy with _ | pF
        · simp [mainRun, resolveTokenSlot, resolveProxySlot, ht, hp]
        · obtain ⟨s, hs, -⟩ := gatekeeperAndMaci_trace_extends dep gen cfg
            tokF pF [DeployCall.signUpToken,
              DeployCall.constantInitialVoiceCreditProxy
                cfg.initialVoiceCreditBalance]
          simp only [mainRun, resolveTokenSlot, resolveProxySlot, ht, hp]
          simp [hs]
    · rcases ht : dep Contract.SignUpToken with _ | tokF
      · simp [mainRun, resolveTokenSlot, resolveProxySlot, ht]
      · obtain ⟨s, hs, -⟩ := gatekeeperAndMaci_trace_extends dep gen cfg
          tokF proxyA [DeployCall.signUpToken]
        simp only [mainRun, resolveTokenSlot, resolveProxySlot, ht]
        simp [hs]
    · rcases hp : dep Contract.ConstantInitialVoiceCreditProxy with _ | pF
      · simp [mainRun, resolveTokenSlot, resolveProxySlot, hp]
      · obtain ⟨s, hs, -⟩ := gatekeeperAndMaci_trace_extends dep gen cfg
          tokA pF [DeployCall.constantInitialVoiceCreditProxy
            cfg.initialVoiceCreditBalance]
        simp only [mainRun, resolveTokenSlot, resolveProxySlot, hp]
        simp [hs]
    · obtain ⟨s, hs, -⟩ := gatekeeperAndMaci_trace_extends dep gen cfg
        tokA proxyA []
      simp only [mainRun, resolveTokenSlot, resolveProxySlot]
      simp [hs]
  · rw [List.all_eq_true]
    intro c hc
    rcases c with _ | amt | t | _ | _ | _ | ar <;>
      simp [DeployCall.maciMaxUsersIs]
    obtain ⟨-, -, -, -, h5, -, -⟩ := mainRun_maci_mem dep gen cfg args ar hc
    rw [h5, hz]
    decide

/-- C4 witness: the all-confirming run on the zero-depth configuration. -/
theorem mainRun_no_depth_validation_witness :
    (mainRun depAll genEx cfgZero ⟨none, none⟩).1 ≠ [] ∧
    ((mainRun depAll genEx cfgZero ⟨none, none⟩).1.all
      (DeployCall.maciMaxUsersIs "0")) = true :=
  mainRun_no_depth_validation depAll genEx cfgZero ⟨none, none⟩ (by rfl)

/-- C5 counterexample: when the gatekeeper deployment fails after the
token and proxy were deployed, the MACI deployment is never attempted but
no manifest at all is surfaced, refuting the claim that a partial manifest
with exactly the token (and proxy) entries is surfaced. -/
theorem gatekeeperFailure_no_manifest :
    (mainRun depNoGatekeeper genEx cfgEx ⟨none, none⟩).2 = none ∧
    (mainRun depNoGatekeeper genEx cfgEx ⟨none, none⟩).1 =
      [DeployCall.signUpToken,
       DeployCall.constantInitialVoiceCreditProxy 100,
       DeployCall.signUpTokenGatekeeper "0x1"] := by decide

/-- C5 (amended): whenever the gatekeeper deployment fails, the MACI
deployment is never attempted and no manifest is surfaced: the partial
address set assembled before the failure is lost. -/
theorem gatekeeperFailure_aborts_silently (dep : Deployer)
    (gen : Nat → Nat × Nat) (cfg : MaciConfig) (args : MainArgs)
    (hg : dep Contract.SignUpTokenGatekeeper = none) :
    ((mainRun dep gen cfg args).1.all fun c => !c.isMaci) = true ∧
    (mainRun dep gen cfg args).2 = none := by
  rcases args with ⟨tok, proxy⟩
  constructor <;>
  · rcases tok with _ | tokA <;> rcases proxy with _ | proxyA <;>
      rcases ht : dep Contract.SignUpToken with _ | tokF <;>
      rcases hp : dep Contract.ConstantInitialVoiceCreditProxy with _ | pF <;>
      simp [mainRun, resolveTokenSlot, resolveProxySlot, gatekeeperAndMaci,
        hg, ht, hp, DeployCall.isMaci]

/-- C5 witness: the sample run whose gatekeeper deployment fails with
both overrides supplied. -/
theorem gatekeeperFailure_aborts_silently_witness :
    ((mainRun depNoGatekeeper genEx cfgEx ⟨some "0xT", some "0xP"⟩).1.all
      fun c => !c.isMaci) = true ∧
    (mainRun depNoGatekeeper genEx cfgEx ⟨some "0xT", some "0xP"⟩).2 = none :=
  gatekeeperFailure_aborts_silently depNoGatekeeper genEx cfgEx
    ⟨some "0xT", some "0xP"⟩ (by decide)

/-- C6: the MACI deployment is never invoked before the MiMC library, both
verifiers and the gatekeeper each produced a concrete address; those
reported addresses are exactly the ones passed into the MACI constructor
and link arguments, and the four deploy calls precede the MACI call in the
trace. -/
theorem mainRun_maci_after_deps (dep : Deployer) (gen : Nat → Nat × Nat)
    (cfg : MaciConfig) (args : MainArgs) (a : MaciDeployArgs)
    (h : DeployCall.maci a ∈ (mainRun dep gen cfg args).1) :
    dep Contract.MiMC = some a.mimcLink ∧
    dep Contract.BatchUpdateStateTreeVerifier = some a.batchUstVerifierAddress ∧
    dep Contract.QuadVoteTallyVerifier = some a.quadVoteTallyVerifierAddress ∧
    dep Contract.SignUpTokenGatekeeper = some a.signUpGatekeeperAddress ∧
    ∃ pre post,
      (mainRun dep gen cfg args).1 = pre ++ DeployCall.maci a :: post ∧
      DeployCall.mimc ∈ pre ∧
      DeployCall.batchUpdateStateTreeVerifier ∈ pre ∧
      DeployCall.quadVoteTallyVerifier ∈ pre ∧
      ∃ t, DeployCall.signUpTokenGatekeeper t ∈ pre := by
  obtain ⟨h1, h2, h3, h4, -, -, h7⟩ := mainRun_maci_mem dep gen cfg args a h
  exact ⟨h1, h2, h3, h4, h7⟩

/-- C6 witness: the all-confirming sample run. -/
theorem mainRun_maci_after_deps_witness :
    depAll Contract.MiMC = some argsEx.mimcLink ∧
    depAll Contract.BatchUpdateStateTreeVerifier =
      some argsEx.batchUstVerifierAddress ∧
    depAll Contract.QuadVoteTallyVerifier =
      some argsEx.quadVoteTallyVerifierAddress ∧
    depAll Contract.SignUpTokenGatekeeper =
      some argsEx.signUpGatekeeperAddress ∧
    ∃ pre post,
      (mainRun depAll genEx cfgEx ⟨none, none⟩).1 =
        pre ++ DeployCall.maci argsEx :: post ∧
      DeployCall.mimc ∈ pre ∧
      DeployCall.batchUpdateStateTreeVerifier ∈ pre ∧
      DeployCall.quadVoteTallyVerifier ∈ pre ∧
      ∃ t, DeployCall.signUpTokenGatekeeper t ∈ pre :=
  mainRun_maci_after_deps depAll genEx cfgEx ⟨none, none⟩ argsEx (by decide)

/-- C7: coordinator key resolution is pure and deterministic: with no
supplied key the result is a function of the derivation function and the
private key alone, and a supplied key is returned unchanged regardless of
the private key. -/
theorem resolveCoordinatorKey_pure (gen : Nat → Nat × Nat) (k k2 : Nat)
    (pk : PubKey) :
    resolveCoordinatorKey gen k none = PubKey.mk (gen k).1 (gen k).2 ∧
    resolveCoordinatorKey gen k (some pk) = pk ∧
    resolveCoordinatorKey gen k (some pk) =
      resolveCoordinatorKey gen k2 (some pk) :=
  ⟨rfl, rfl, rfl⟩

end Maci

namespace MaciCli

/-- Removing a file removes exactly the entry at that path. -/
theorem FS.lookupFile_removeFile (fs : FS) (p q : String) :
    FS.lookupFile (FS.removeFile fs p) q =
      if q = p then none else FS.lookupFile fs q := by
  induction fs with
  | nil => simp [FS.removeFile, FS.lookupFile]
  | cons hd tl ih =>
    rcases hd with ⟨r, mm⟩
    by_cases h1 : r = p <;> by_cases h2 : q = p <;> by_cases h3 : r = q <;>
      simp_all [FS.removeFile, FS.lookupFile]

/-- Writing a file updates exactly the entry at that path. -/
theorem FS.lookupFile_writeFile (fs : FS) (p q : String) (m : Manifest) :
    FS.lookupFile (FS.writeFile fs p m) q =
      if q = p then some m else FS.lookupFile fs q := by
  unfold FS.writeFile
  rcases eq_or_ne q p with h | h
  · subst h
    simp [FS.lookupFile]
  · simp [FS.lookupFile, Ne.symm h, h, FS.lookupFile_removeFile]

/-- C8: resetting the store and then recording one address yields a
manifest containing exactly that single entry. -/
theorem resetStore_store_load (fs fs1 : FS) (X addr : String)
    (h : resetStore fs = Except.ok fs1) :
    loadManifest (storeContractAddress fs1 X addr) = [(X, addr)] := by
  unfold resetStore at h
  rcases hl : FS.lookupFile fs contractAddressesStore with _ | m <;>
    simp [renameSync, hl] at h
  subst h
  unfold storeContractAddress loadManifest resetContractAddresses
  simp [FS.writeFile, FS.lookupFile]

/-- C8 witness: a store holding one prior manifest. -/
theorem resetStore_store_load_witness :
    loadManifest (storeContractAddress
      [("contractAddresses.json", []),
       ("contractAddresses.old.json", [("A", "0x9")])] "X" "0xA") =
      [("X", "0xA")] :=
  resetStore_store_load [("contractAddresses.json", [("A", "0x9")])]
    [("contractAddresses.json", []),
     ("contractAddresses.old.json", [("A", "0x9")])] "X" "0xA" (by rfl)

/-- C9 counterexample: with a manifest at the store path and a prior
archive at the backup path, `resetStore` succeeds and silently replaces
the archive with the manifest, refuting the claim that it fails with a
`StoreConflict` error. -/
theorem resetStore_overwrites_backup_counterexample :
    resetStore [("contractAddresses.json", [("A", "0x1")]),
                ("contractAddresses.old.json", [("B", "0x2")])] =
      Except.ok [("contractAddresses.json", []),
                 ("contractAddresses.old.json", [("A", "0x1")])] := by rfl

/-- C9 (amended): whenever a manifest exists at the store path,
`resetStore` succeeds, the backup path holds that manifest afterwards
(silently replacing any prior archive), and the store path holds a fresh
empty manifest; no error is ever raised in this situation. -/
theorem resetStore_silently_replaces_backup (fs : FS) (m : Manifest)
    (h : FS.lookupFile fs contractAddressesStore = some m) :
    ∃ fs2, resetStore fs = Except.ok fs2 ∧
      FS.lookupFile fs2 oldContractAddressesStore = some m ∧
      FS.lookupFile fs2 contractAddressesStore = some [] := by
  refine ⟨resetContractAddresses (FS.writeFile
      (FS.removeFile fs contractAddressesStore) oldContractAddressesStore m),
    ?_, ?_, ?_⟩
  · unfold resetStore renameSync
    rw [h]
  · unfold resetContractAddresses
    rw [FS.lookupFile_writeFile, if_neg (by decide),
      FS.lookupFile_writeFile, if_pos rfl]
  · unfold resetContractAddresses
    rw [FS.lookupFile_writeFile, if_pos rfl]

/-- C9 witness: the store and a prior archive both present. -/
theorem resetStore_silently_replaces_backup_witness :
    ∃ fs2, resetStore [("contractAddresses.json", [("A", "0x1")]),
        ("contractAddresses.old.json", [("B", "0x2")])] = Except.ok fs2 ∧
      FS.lookupFile fs2 oldContractAddressesStore = some [("A", "0x1")] ∧
      FS.lookupFile fs2 contractAddressesStore = some [] :=
  resetStore_silently_replaces_backup
    [("contractAddresses.json", [("A", "0x1")]),
     ("contractAddresses.old.json", [("B", "0x2")])] [("A", "0x1")] (by rfl)

/-- C10: on a first-ever run, with no manifest file at the store path,
`deployVkRegistryContract` fails with ENOENT from the unconditional
rename, before any deployment is attempted and without touching the
filesystem. -/
theorem deployVkRegistry_missing_store_throws (fs : FS)
    (deployResult : Option String)
    (h : FS.lookupFile fs contractAddressesStore = none) :
    deployVkRegistryContract deployResult fs = ([], fs, some RunError.enoent) := by
  unfold deployVkRegistryContract renameSync
  rw [h]

/-- C10 witness: the empty filesystem. -/
theorem deployVkRegistry_missing_store_throws_witness :
    deployVkRegistryContract (some "0xVK") [] =
      ([], [], some RunError.enoent) :=
  deployVkRegistry_missing_store_throws [] (some "0xVK") (by rfl)

end MaciCli
